import Mathlib

/-!
Verification of mouse-follows-focus (src/mouse-follows-focus.py).

Shallow embedding of the decision pipeline: window handles are `Option Nat`
(`none` is the null handle reported by the OS), coordinates are `Int`
(Win32 LONG, overflow irrelevant at screen scale), and every OS call made
during one loop iteration is modelled as one field of an oracle record
holding that call's response.  Python floor division `//` by the positive
literal 2 coincides with `Int` division (Euclidean division, which floors
for a positive divisor), so `/` on `Int` embeds `// 2` exactly.
-/

namespace MouseFollowsFocus

/-- A window rectangle in screen coordinates: the Win32 RECT struct
(left, top, right, bottom). -/
structure Rect where
  left : Int
  top : Int
  right : Int
  bottom : Int
deriving DecidableEq, Repr

/-- A cursor position: the Win32 POINT struct. -/
structure Point where
  x : Int
  y : Int
deriving DecidableEq, Repr

/-- `WS_EX_TOOLWINDOW = 0x00000080`. -/
def WS_EX_TOOLWINDOW : Int := 128

/-- Responses of the OS calls issued by `hwnd_is_candidate` for one
invocation: `IsWindowVisible`, `IsIconic`, the `_has_getwindowlong`
capability flag, `GetWindowLongW(hwnd, GWL_EXSTYLE)`, and the
`GetWindowRect` call made inside the filter (`none` = the call failed). -/
structure WinQuery where
  isWindowVisible : Bool
  isIconic : Bool
  hasGetWindowLong : Bool
  getWindowLong : Int
  getWindowRect : Option Rect
deriving DecidableEq, Repr

/-- `hwnd_is_candidate(hwnd)`: the candidate filter, line by line from the
source.  `hwnd = none` embeds a falsy (null) handle. -/
def hwnd_is_candidate (q : WinQuery) (hwnd : Option Nat) : Bool :=
  match hwnd with
  | none => false
  | some _ =>
    if !q.isWindowVisible then false
    else if q.isIconic then false
    else if q.hasGetWindowLong && !(Int.land q.getWindowLong WS_EX_TOOLWINDOW == 0) then false
    else
      match q.getWindowRect with
      | none => false
      | some r =>
        let width := r.right - r.left
        let height := r.bottom - r.top
        if width ≤ 0 || height ≤ 0 then false
        else true

/-- `point_in_rect(x, y, rect)`: inclusive containment, the chained
comparisons `left <= x <= right and top <= y <= bottom`. -/
def point_in_rect (x y : Int) (rect : Rect) : Bool :=
  decide ((rect.left ≤ x ∧ x ≤ rect.right) ∧ (rect.top ≤ y ∧ y ≤ rect.bottom))

/-- `rect_center(rect)`: `left + (right - left) // 2`,
`top + (bottom - top) // 2`.  Python `//` is floor division; for the
positive divisor 2 it equals `Int` division. -/
def rect_center (rect : Rect) : Point :=
  { x := rect.left + (rect.right - rect.left) / 2
  , y := rect.top + (rect.bottom - rect.top) / 2 }

/-- The CursorPlacer decision the orchestrator inlines: no move when the
cursor is already inside the rectangle, otherwise move to the center. -/
def place (rect : Rect) (cur : Point) : Option Point :=
  if point_in_rect cur.x cur.y rect then none
  else some (rect_center rect)

/-- Responses of all OS calls one iteration of `main`'s loop can issue:
the polled `GetForegroundWindow` result, the filter's queries, the
post-settle `get_window_rect` and `get_cursor_pos` results, and the
re-query `rect2` (`none` = the corresponding call failed). -/
structure TickEnv where
  foreground : Option Nat
  query : WinQuery
  rect : Option Rect
  cursor : Option Point
  rect2 : Option Rect
deriving DecidableEq, Repr

/-- Observable outcome of one loop iteration: the new `last_hwnd`, whether
the transition branch was entered (`fired`), whether the settle delay ran
(`settled`), and the `SetCursorPos` argument when a move is issued. -/
structure TickResult where
  last_hwnd : Option Nat
  fired : Bool
  settled : Bool
  move : Option Point
deriving DecidableEq, Repr

/-- One iteration of the `while True` loop in `main`, from the source:
`if hwnd and hwnd != last_hwnd: last_hwnd = hwnd; if hwnd_is_candidate ...`.
`env.rect2.getD rect` embeds `get_window_rect(hwnd) or rect` (a returned
tuple is always truthy, so `or` only replaces a failed query). -/
def tick (last_hwnd : Option Nat) (env : TickEnv) : TickResult :=
  match env.foreground with
  | none => { last_hwnd := last_hwnd, fired := false, settled := false, move := none }
  | some h =>
    if some h = last_hwnd then
      { last_hwnd := last_hwnd, fired := false, settled := false, move := none }
    else
      if hwnd_is_candidate env.query (some h) then
        match env.rect, env.cursor with
        | some rect, some cur =>
          if point_in_rect cur.x cur.y rect then
            { last_hwnd := some h, fired := true, settled := true, move := none }
          else
            let rect2 := env.rect2.getD rect
            { last_hwnd := some h, fired := true, settled := true
            , move := some (rect_center rect2) }
        | _, _ =>
          { last_hwnd := some h, fired := true, settled := true, move := none }
      else
        { last_hwnd := some h, fired := true, settled := false, move := none }

/-- Run the loop over a finite trace of per-tick oracle responses,
threading `last_hwnd` exactly as the loop does. -/
def run (s : Option Nat) : List TickEnv → List TickResult
  | [] => []
  | e :: es =>
    let r := tick s e
    r :: run r.last_hwnd es

/-! ### Case lemmas for one loop iteration -/

lemma tick_foreground_none (last : Option Nat) (env : TickEnv)
    (hf : env.foreground = none) :
    tick last env = { last_hwnd := last, fired := false, settled := false, move := none } := by
  simp [tick, hf]

lemma tick_same_handle (last : Option Nat) (env : TickEnv) (h : Nat)
    (hf : env.foreground = some h) (hl : some h = last) :
    tick last env = { last_hwnd := last, fired := false, settled := false, move := none } := by
  subst hl
  simp [tick, hf]

lemma tick_not_candidate (last : Option Nat) (env : TickEnv) (h : Nat)
    (hf : env.foreground = some h) (hl : some h ≠ last)
    (hc : hwnd_is_candidate env.query (some h) = false) :
    tick last env = { last_hwnd := some h, fired := true, settled := false, move := none } := by
  simp [tick, hf, hl, hc]

lemma tick_query_failed (last : Option Nat) (env : TickEnv) (h : Nat)
    (hf : env.foreground = some h) (hl : some h ≠ last)
    (hc : hwnd_is_candidate env.query (some h) = true)
    (hq : env.rect = none ∨ env.cursor = none) :
    tick last env = { last_hwnd := some h, fired := true, settled := true, move := none } := by
  rcases hq with hq | hq
  · rcases hcu : env.cursor with _ | cur <;> simp [tick, hf, hl, hc, hq, hcu]
  · rcases hr : env.rect with _ | rect <;> simp [tick, hf, hl, hc, hq, hr]

lemma tick_cursor_inside (last : Option Nat) (env : TickEnv) (h : Nat)
    (rect : Rect) (cur : Point)
    (hf : env.foreground = some h) (hl : some h ≠ last)
    (hc : hwnd_is_candidate env.query (some h) = true)
    (hr : env.rect = some rect) (hcu : env.cursor = some cur)
    (hp : point_in_rect cur.x cur.y rect = true) :
    tick last env = { last_hwnd := some h, fired := true, settled := true, move := none } := by
  simp [tick, hf, hl, hc, hr, hcu, hp]

lemma tick_cursor_outside (last : Option Nat) (env : TickEnv) (h : Nat)
    (rect : Rect) (cur : Point)
    (hf : env.foreground = some h) (hl : some h ≠ last)
    (hc : hwnd_is_candidate env.query (some h) = true)
    (hr : env.rect = some rect) (hcu : env.cursor = some cur)
    (hp : point_in_rect cur.x cur.y rect = false) :
    tick last env = { last_hwnd := some h, fired := true, settled := true
                    , move := some (rect_center (env.rect2.getD rect)) } := by
  simp [tick, hf, hl, hc, hr, hcu, hp]

lemma tick_last_hwnd (last : Option Nat) (env : TickEnv) (h : Nat)
    (hf : env.foreground = some h) :
    (tick last env).last_hwnd = some h := by
  by_cases hl : some h = last
  · rw [tick_same_handle last env h hf hl, ← hl]
  · by_cases hc : hwnd_is_candidate env.query (some h) = true
    · rcases hr : env.rect with _ | rect
      · rw [tick_query_failed last env h hf hl hc (Or.inl hr)]
      · rcases hcu : env.cursor with _ | cur
        · rw [tick_query_failed last env h hf hl hc (Or.inr hcu)]
        · by_cases hp : point_in_rect cur.x cur.y rect = true
          · rw [tick_cursor_inside last env h rect cur hf hl hc hr hcu hp]
          · rw [tick_cursor_outside last env h rect cur hf hl hc hr hcu
              (Bool.eq_false_iff.mpr hp)]
    · rw [tick_not_candidate last env h hf hl (Bool.eq_false_iff.mpr hc)]

lemma tick_fired_of_new_handle (last : Option Nat) (env : TickEnv) (h : Nat)
    (hf : env.foreground = some h) (hl : some h ≠ last) :
    (tick last env).fired = true := by
  by_cases hc : hwnd_is_candidate env.query (some h) = true
  · rcases hr : env.rect with _ | rect
    · rw [tick_query_failed last env h hf hl hc (Or.inl hr)]
    · rcases hcu : env.cursor with _ | cur
      · rw [tick_query_failed last env h hf hl hc (Or.inr hcu)]
      · by_cases hp : point_in_rect cur.x cur.y rect = true
        · rw [tick_cursor_inside last env h rect cur hf hl hc hr hcu hp]
        · rw [tick_cursor_outside last env h rect cur hf hl hc hr hcu
            (Bool.eq_false_iff.mpr hp)]
  · rw [tick_not_candidate last env h hf hl (Bool.eq_false_iff.mpr hc)]

lemma run_constant_foreground (a : Nat) (es : List TickEnv)
    (hall : ∀ e ∈ es, e.foreground = some a) :
    ∀ r ∈ run (some a) es,
      r = { last_hwnd := some a, fired := false, settled := false, move := none } := by
  induction es with
  | nil => intro r hr; simp [run] at hr
  | cons e es ih =>
    intro r hr
    have he : e.foreground = some a := hall e (by simp)
    have ht : tick (some a) e =
        { last_hwnd := some a, fired := false, settled := false, move := none } :=
      tick_same_handle (some a) e a he rfl
    simp only [run, ht] at hr
    rcases List.mem_cons.mp hr with hr | hr
    · exact hr
    · exact ih (fun e2 he2 => hall e2 (by simp [he2])) r hr

/-! ### Claim theorems -/

/-- C4: for every rectangle (l,t,r,b) and point (x,y), the containment
predicate used to decide whether the cursor is already inside the window
holds if and only if l ≤ x ≤ r and t ≤ y ≤ b, inclusive on all four
boundary edges. -/
theorem point_in_rect_iff (l t r b x y : Int) :
    point_in_rect x y { left := l, top := t, right := r, bottom := b } = true ↔
      (l ≤ x ∧ x ≤ r) ∧ (t ≤ y ∧ y ≤ b) := by
  simp [point_in_rect]

/-- C5: the computed center is the floor of left + (right-left)/2 and
top + (bottom-top)/2 (characterized by the floor inequalities, so floor
division and not rounding); in particular the center of (0,0,10,10) is
(5,5) and the center of (0,0,11,11) is also (5,5). -/
theorem rect_center_floor_division :
    (∀ rect : Rect,
      2 * ((rect_center rect).x - rect.left) ≤ rect.right - rect.left ∧
      rect.right - rect.left < 2 * ((rect_center rect).x - rect.left) + 2 ∧
      2 * ((rect_center rect).y - rect.top) ≤ rect.bottom - rect.top ∧
      rect.bottom - rect.top < 2 * ((rect_center rect).y - rect.top) + 2) ∧
    rect_center { left := 0, top := 0, right := 10, bottom := 10 } = { x := 5, y := 5 } ∧
    rect_center { left := 0, top := 0, right := 11, bottom := 11 } = { x := 5, y := 5 } := by
  refine ⟨fun rect => ?_, by decide, by decide⟩
  simp only [rect_center]
  omega

/-- C9: for every rectangle with right ≥ left and bottom ≥ top, the
computed center lies inside the rectangle inclusive of boundaries, and
placement is idempotent: if place returns a point p, placing p against the
same rectangle returns none. -/
theorem center_in_rect_and_place_idempotent (rect : Rect) (cur : Point) (p : Point)
    (h1 : rect.left ≤ rect.right) (h2 : rect.top ≤ rect.bottom) :
    point_in_rect (rect_center rect).x (rect_center rect).y rect = true ∧
    (place rect cur = some p → place rect p = none) := by
  have hc : point_in_rect (rect_center rect).x (rect_center rect).y rect = true := by
    simp only [point_in_rect, rect_center, decide_eq_true_eq]
    omega
  refine ⟨hc, fun hp => ?_⟩
  have hpe : p = rect_center rect := by
    unfold place at hp
    split at hp
    · exact absurd hp (by simp)
    · exact (Option.some_injective _ hp).symm
  subst hpe
  simp [place, hc]

theorem center_in_rect_and_place_idempotent_witness :
    point_in_rect (rect_center { left := 0, top := 0, right := 10, bottom := 10 }).x
        (rect_center { left := 0, top := 0, right := 10, bottom := 10 }).y
        { left := 0, top := 0, right := 10, bottom := 10 } = true ∧
    (place { left := 0, top := 0, right := 10, bottom := 10 } { x := 100, y := 100 } =
        some { x := 5, y := 5 } →
      place { left := 0, top := 0, right := 10, bottom := 10 } { x := 5, y := 5 } = none) :=
  center_in_rect_and_place_idempotent
    { left := 0, top := 0, right := 10, bottom := 10 } { x := 100, y := 100 }
    { x := 5, y := 5 } (by decide) (by decide)

/-- C8: on every tick whose post-settle cursor position lies inside the
post-settle rectangle (inclusive), no cursor write occurs: the iteration
issues no SetCursorPos call. -/
theorem no_move_when_cursor_inside (last : Option Nat) (env : TickEnv)
    (rect : Rect) (cur : Point)
    (hr : env.rect = some rect) (hcu : env.cursor = some cur)
    (hp : point_in_rect cur.x cur.y rect = true) :
    (tick last env).move = none := by
  rcases hf : env.foreground with _ | h
  · rw [tick_foreground_none last env hf]
  · by_cases hl : some h = last
    · rw [tick_same_handle last env h hf hl]
    · by_cases hc : hwnd_is_candidate env.query (some h) = true
      · rw [tick_cursor_inside last env h rect cur hf hl hc hr hcu hp]
      · rw [tick_not_candidate last env h hf hl (Bool.eq_false_iff.mpr hc)]

theorem no_move_when_cursor_inside_witness :
    (tick none
      { foreground := some 1
      , query := { isWindowVisible := true, isIconic := false
                 , hasGetWindowLong := true, getWindowLong := 0
                 , getWindowRect := some { left := 500, top := 500, right := 700, bottom := 700 } }
      , rect := some { left := 500, top := 500, right := 700, bottom := 700 }
      , cursor := some { x := 600, y := 600 }
      , rect2 := some { left := 500, top := 500, right := 700, bottom := 700 } }).move = none :=
  no_move_when_cursor_inside none _
    { left := 500, top := 500, right := 700, bottom := 700 } { x := 600, y := 600 }
    rfl rfl (by decide)

/-- C7: on every tick, if the post-settle rectangle query or the
cursor-position query fails, no cursor move is attempted; the iteration
still returns normally (the loop continues on the next tick). -/
theorem query_failure_abandons_transition (last : Option Nat) (env : TickEnv)
    (hq : env.rect = none ∨ env.cursor = none) :
    (tick last env).move = none := by
  rcases hf : env.foreground with _ | h
  · rw [tick_foreground_none last env hf]
  · by_cases hl : some h = last
    · rw [tick_same_handle last env h hf hl]
    · by_cases hc : hwnd_is_candidate env.query (some h) = true
      · rw [tick_query_failed last env h hf hl hc hq]
      · rw [tick_not_candidate last env h hf hl (Bool.eq_false_iff.mpr hc)]

theorem query_failure_abandons_transition_witness :
    (tick none
      { foreground := some 1
      , query := { isWindowVisible := true, isIconic := false
                 , hasGetWindowLong := true, getWindowLong := 0
                 , getWindowRect := some { left := 0, top := 0, right := 10, bottom := 10 } }
      , rect := none, cursor := none, rect2 := none }).move = none :=
  query_failure_abandons_transition none _ (Or.inl rfl)

/-- C6: on every transition where the cursor lies outside the post-settle
rectangle, the move targets the center of the re-queried rectangle rect2,
falling back to the center of the initial rect when the re-query fails. -/
theorem move_uses_requeried_rect_with_fallback (last : Option Nat) (env : TickEnv)
    (h : Nat) (rect : Rect) (cur : Point)
    (hf : env.foreground = some h) (hl : some h ≠ last)
    (hc : hwnd_is_candidate env.query (some h) = true)
    (hr : env.rect = some rect) (hcu : env.cursor = some cur)
    (hp : point_in_rect cur.x cur.y rect = false) :
    (tick last env).move = some (rect_center (env.rect2.getD rect)) ∧
    (env.rect2 = none → (tick last env).move = some (rect_center rect)) ∧
    (∀ r2 : Rect, env.rect2 = some r2 → (tick last env).move = some (rect_center r2)) := by
  rw [tick_cursor_outside last env h rect cur hf hl hc hr hcu hp]
  refine ⟨rfl, fun h2 => ?_, fun r2 h2 => ?_⟩ <;> rw [h2] <;> rfl

theorem move_uses_requeried_rect_with_fallback_witness :
    (tick none
      { foreground := some 1
      , query := { isWindowVisible := true, isIconic := false
                 , hasGetWindowLong := true, getWindowLong := 0
                 , getWindowRect := some { left := 500, top := 500, right := 700, bottom := 700 } }
      , rect := some { left := 500, top := 500, right := 700, bottom := 700 }
      , cursor := some { x := 150, y := 150 }
      , rect2 := none }).move =
      some (rect_center
        ((none : Option Rect).getD { left := 500, top := 500, right := 700, bottom := 700 })) :=
  (move_uses_requeried_rect_with_fallback none _ 1
    { left := 500, top := 500, right := 700, bottom := 700 } { x := 150, y := 150 }
    rfl (by decide) (by decide) rfl rfl (by decide)).1

/-- C1: a transition fires exactly when the polled handle is non-null and
differs from the stored FocusState; FocusState is updated to the new
handle exactly at that moment and is otherwise unchanged (a transient
null poll never updates it); when no transition fires there is neither a
settle delay nor a move; and for the handle sequence [A, null, A] no
transition fires on the second A. -/
theorem focus_transition_iff_and_null_debounce :
    (∀ (last : Option Nat) (env : TickEnv),
      (tick last env).fired = true ↔ env.foreground ≠ none ∧ env.foreground ≠ last) ∧
    (∀ (last : Option Nat) (env : TickEnv),
      (tick last env).last_hwnd = if (tick last env).fired then env.foreground else last) ∧
    (∀ (last : Option Nat) (env : TickEnv),
      (tick last env).fired = false →
        (tick last env).settled = false ∧ (tick last env).move = none) ∧
    (∀ (s : Option Nat) (a : Nat) (e1 e2 e3 : TickEnv),
      e1.foreground = some a → e2.foreground = none → e3.foreground = some a →
      tick (tick (tick s e1).last_hwnd e2).last_hwnd e3 =
        { last_hwnd := some a, fired := false, settled := false, move := none }) := by
  have key : ∀ (last : Option Nat) (env : TickEnv),
      ((tick last env).fired = true ↔ env.foreground ≠ none ∧ env.foreground ≠ last) ∧
      (tick last env).last_hwnd = (if (tick last env).fired then env.foreground else last) ∧
      ((tick last env).fired = false →
        (tick last env).settled = false ∧ (tick last env).move = none) := by
    intro last env
    rcases hf : env.foreground with _ | h
    · rw [tick_foreground_none last env hf]
      simp
    · by_cases hl : some h = last
      · rw [tick_same_handle last env h hf hl]
        simp [hl]
      · have hfl := tick_fired_of_new_handle last env h hf hl
        have hlast := tick_last_hwnd last env h hf
        refine ⟨?_, ?_, ?_⟩
        · simp [hfl, hl]
        · rw [hfl, hlast]; simp
        · intro hcontra; rw [hfl] at hcontra; exact absurd hcontra (by simp)
  refine ⟨fun last env => (key last env).1, fun last env => (key last env).2.1,
    fun last env => (key last env).2.2, ?_⟩
  intro s a e1 e2 e3 h1 h2 h3
  have hs1 : (tick s e1).last_hwnd = some a := tick_last_hwnd s e1 a h1
  rw [tick_foreground_none ((tick s e1).last_hwnd) e2 h2]
  simp only [hs1]
  exact tick_same_handle (some a) e3 a h3 rfl

theorem focus_transition_iff_and_null_debounce_witness :
    tick (tick (tick none
      { foreground := some 1
      , query := { isWindowVisible := true, isIconic := false, hasGetWindowLong := true
                 , getWindowLong := 0
                 , getWindowRect := some { left := 0, top := 0, right := 10, bottom := 10 } }
      , rect := none, cursor := none, rect2 := none }).last_hwnd
      { foreground := none
      , query := { isWindowVisible := true, isIconic := false, hasGetWindowLong := true
                 , getWindowLong := 0, getWindowRect := none }
      , rect := none, cursor := none, rect2 := none }).last_hwnd
      { foreground := some 1
      , query := { isWindowVisible := true, isIconic := false, hasGetWindowLong := true
                 , getWindowLong := 0
                 , getWindowRect := some { left := 0, top := 0, right := 10, bottom := 10 } }
      , rect := none, cursor := none, rect2 := none } =
      { last_hwnd := some 1, fired := false, settled := false, move := none } :=
  focus_transition_iff_and_null_debounce.2.2.2 none 1 _ _ _ rfl rfl rfl

/-- C10: while the polled foreground handle stays the same non-null A over
consecutive ticks, FocusState equals A immediately after the first tick
(it is updated before the candidate filter runs, even when A is rejected),
and on every later tick of that tenure no transition fires, no settle
delay runs, and no move is issued. -/
theorem single_transition_per_tenure (s : Option Nat) (a : Nat)
    (e : TickEnv) (es : List TickEnv)
    (hf : e.foreground = some a) (hrest : ∀ e2 ∈ es, e2.foreground = some a) :
    (tick s e).last_hwnd = some a ∧
    ∀ r ∈ run (tick s e).last_hwnd es,
      r.fired = false ∧ r.settled = false ∧ r.move = none := by
  have hlast : (tick s e).last_hwnd = some a := tick_last_hwnd s e a hf
  refine ⟨hlast, fun r hr => ?_⟩
  rw [hlast] at hr
  have := run_constant_foreground a es hrest r hr
  rw [this]
  exact ⟨rfl, rfl, rfl⟩

theorem single_transition_per_tenure_witness :
    (tick none
      { foreground := some 7
      , query := { isWindowVisible := false, isIconic := true, hasGetWindowLong := true
                 , getWindowLong := 0, getWindowRect := none }
      , rect := none, cursor := none, rect2 := none }).last_hwnd = some 7 ∧
    ∀ r ∈ run (tick none
      { foreground := some 7
      , query := { isWindowVisible := false, isIconic := true, hasGetWindowLong := true
                 , getWindowLong := 0, getWindowRect := none }
      , rect := none, cursor := none, rect2 := none }).last_hwnd
      [ { foreground := some 7
        , query := { isWindowVisible := true, isIconic := false, hasGetWindowLong := true
                   , getWindowLong := 0
                   , getWindowRect := some { left := 0, top := 0, right := 10, bottom := 10 } }
        , rect := some { left := 0, top := 0, right := 10, bottom := 10 }
        , cursor := some { x := 100, y := 100 }
        , rect2 := none } ],
      r.fired = false ∧ r.settled = false ∧ r.move = none :=
  single_transition_per_tenure none 7 _ _ rfl (by intro e2 he2; simp at he2; rw [he2])

/-- C2: the candidate filter returns false iff the handle is null, the
window is invisible, the window is iconic, the extended-style capability
is available and the tool-window bit is set, the rectangle query fails, or
the retrieved rectangle has non-positive width or height; an unavailable
extended-style capability never disqualifies. -/
theorem candidate_false_iff (q : WinQuery) (hwnd : Option Nat) :
    hwnd_is_candidate q hwnd = false ↔
      hwnd = none ∨ q.isWindowVisible = false ∨ q.isIconic = true ∨
      (q.hasGetWindowLong = true ∧ Int.land q.getWindowLong WS_EX_TOOLWINDOW ≠ 0) ∨
      q.getWindowRect = none ∨
      (∃ r : Rect, q.getWindowRect = some r ∧
        (r.right - r.left ≤ 0 ∨ r.bottom - r.top ≤ 0)) := by
  cases hwnd with
  | none => simp [hwnd_is_candidate]
  | some h =>
    cases hvis : q.isWindowVisible with
    | false => simp [hwnd_is_candidate, hvis]
    | true =>
      cases hicon : q.isIconic with
      | true => simp [hwnd_is_candidate, hicon]
      | false =>
        cases hgwl : q.hasGetWindowLong with
        | true =>
          by_cases hland : Int.land q.getWindowLong WS_EX_TOOLWINDOW = 0
          · cases hrect : q.getWindowRect with
            | none => simp [hwnd_is_candidate, hvis, hicon, hgwl, hland, hrect]
            | some r =>
              by_cases harea : r.right - r.left ≤ 0 ∨ r.bottom - r.top ≤ 0
              · rcases harea with ha | ha <;>
                  simp [hwnd_is_candidate, hvis, hicon, hgwl, hland, hrect, ha] <;> omega
              · push_neg at harea
                simp [hwnd_is_candidate, hvis, hicon, hgwl, hland, hrect]
                omega
          · simp [hwnd_is_candidate, hvis, hicon, hgwl, hland]
        | false =>
          cases hrect : q.getWindowRect with
          | none => simp [hwnd_is_candidate, hvis, hicon, hgwl, hrect]
          | some r =>
            by_cases harea : r.right - r.left ≤ 0 ∨ r.bottom - r.top ≤ 0
            · rcases harea with ha | ha <;>
                simp [hwnd_is_candidate, hvis, hicon, hgwl, hrect, ha] <;> omega
            · push_neg at harea
              simp [hwnd_is_candidate, hvis, hicon, hgwl, hrect]
              omega

/-- C3 counterexample: the claim that the post-settle path never checks
containment against, or moves from, a zero-or-negative-area rectangle is
false: with a valid rectangle seen by the filter but a zero-area rectangle
returned by the post-settle query, the iteration issues a move to the
center of that zero-area rectangle. -/
theorem post_settle_move_from_zero_area_rect :
    (tick none
      { foreground := some 1
      , query := { isWindowVisible := true, isIconic := false, hasGetWindowLong := true
                 , getWindowLong := 0
                 , getWindowRect := some { left := 0, top := 0, right := 100, bottom := 100 } }
      , rect := some { left := 0, top := 0, right := 0, bottom := 0 }
      , cursor := some { x := 5, y := 5 }
      , rect2 := none }).move =
      some (rect_center { left := 0, top := 0, right := 0, bottom := 0 }) ∧
    ({ left := 0, top := 0, right := 0, bottom := 0 } : Rect).right -
      ({ left := 0, top := 0, right := 0, bottom := 0 } : Rect).left ≤ 0 :=
  ⟨by decide, by decide⟩

/-- C3 amended: the candidate filter rejects any window whose retrieved
rectangle has non-positive width or height, but the post-settle path does
not re-validate area and may check containment and move using a
zero-or-negative-area rectangle returned after the settle delay. -/
theorem filter_rejects_invalid_rect (q : WinQuery) (hwnd : Option Nat) (r : Rect)
    (hq : q.getWindowRect = some r)
    (hr : r.right - r.left ≤ 0 ∨ r.bottom - r.top ≤ 0) :
    hwnd_is_candidate q hwnd = false := by
  cases hwnd with
  | none => rfl
  | some h =>
    simp only [hwnd_is_candidate, hq]
    split
    · rfl
    · split
      · rfl
      · split
        · rfl
        · rcases hr with hr | hr <;> simp [hr]

theorem filter_rejects_invalid_rect_witness :
    hwnd_is_candidate
      { isWindowVisible := true, isIconic := false, hasGetWindowLong := true
      , getWindowLong := 0
      , getWindowRect := some { left := 0, top := 0, right := 0, bottom := 0 } }
      (some 1) = false :=
  filter_rejects_invalid_rect _ (some 1)
    { left := 0, top := 0, right := 0, bottom := 0 } rfl (Or.inl (by decide))

end MouseFollowsFocus
